import Mathlib

/-!
Verification of the Delaware County probate scraper
(`src/main.py`, `src/testing.py`, `src/test2.py`).

The repository drives a browser against a frame-heavy case-management
site.  The browser itself is external; the logic verified here is the
pure decision logic of the scripts, embedded shallowly:

* record extraction and assembly (`extract_representatives_atomic`,
  `extract_decedent_info_atomic`, the record cross-product and the
  validity filter in `scrape_single_day` of `main.py`;
  `extract_representatives` and the emission step of
  `deep_scrape_all_results` in `testing.py`);
* the row/page walk of `scrape_single_day` (`main.py`), with the
  browser outcomes of each row (click success, detail-load success,
  extracted fields, back-navigation success) abstracted as inputs;
* the polling frame resolver `wait_for_frame_by_name`, with the frame
  tree at each poll abstracted as a function of the poll index;
* the date normalization of `enter_filing_dates`
  (`testing.py` / `test2.py`).
-/

namespace Delaware

/-- One row of the final output, as assembled in
`scrape_single_day` (`main.py`): decedent fields from
`extract_decedent_info_atomic`, case identifiers parsed from the
detail-frame URL, representative fields from
`extract_representatives_atomic`. -/
structure CaseRecord where
  case_file_no : String
  filing_date : String
  decedent_address : String
  caseFileId : String
  caseFileNum : String
  representative_name : String
  representative_address : String
deriving Repr, DecidableEq

/-- One representative, as produced by the representative extractors
(`representative_name` / `representative_address` dict in the source). -/
structure Rep where
  representative_name : String
  representative_address : String
deriving Repr, DecidableEq

/-! ## Address assembly (`extract_decedent_info_atomic`, main.py 584-593)

```python
parts = [p for p in [addr, city, state, zipc] if p]
decedent_address = ", ".join(parts) if parts else ""
```
Python string truthiness (`if p`) keeps exactly the non-empty fragments. -/

/-- The decedent-address assembly of `extract_decedent_info_atomic`
(main.py): keep the non-empty fragments of street/city/state/zip, in
that order, and join them with `", "`. -/
def assembleAddress (addr city state zipc : String) : String :=
  let parts := [addr, city, state, zipc].filter (fun p => p ≠ "")
  if parts.isEmpty then "" else String.intercalate ", " parts

/-! ## Representative extraction (`extract_representatives_atomic`, main.py 595-642)

```python
def looks_like_address(t: str) -> bool:
    u = t.upper()
    return any(ch.isdigit() for ch in t) or any(k in u for k in [
        "AVE","ST","STREET","AVENUE","ROAD","RD","LANE","LN","DR","DRIVE",
        "APT","SUITE","PO BOX","BLVD","COURT","CT"
    ])

for i, raw in enumerate(rows):
    t = raw.strip()
    if not t:
        continue
    if not looks_like_address(t) and len(t) < 120:
        if current["name"]:
            reps.append({...current...})
            current = {"name": "", "address": ""}
        current["name"] = t
    else:
        current["address"] = f"{current['address']} {t}".strip() if current["address"] else t
if current["name"]:
    reps.append({...current...})
```
-/

/-- Boolean substring test on character lists: `isPrefixCh n h` holds
when `n` is a prefix of `h`. -/
def isPrefixCh : List Char → List Char → Bool
  | [], _ => true
  | _ :: _, [] => false
  | a :: as, b :: bs => a == b && isPrefixCh as bs

/-- Boolean substring test on character lists: `isInfixCh n h` holds
when `n` occurs contiguously inside `h` (Python's `n in h`). -/
def isInfixCh (n : List Char) : List Char → Bool
  | [] => isPrefixCh n []
  | h :: t => isPrefixCh n (h :: t) || isInfixCh n t

/-- `containsSub h n`: Python's `n in h` on strings. -/
def containsSub (h n : String) : Bool := isInfixCh n.data h.data

/-- Python's `str.strip()`: drop whitespace from both ends. -/
def pyStrip (s : String) : String :=
  ⟨((s.data.dropWhile Char.isWhitespace).reverse.dropWhile
      Char.isWhitespace).reverse⟩

/-- Python's `str.upper()` (ASCII case mapping). -/
def pyUpper (s : String) : String := ⟨s.data.map Char.toUpper⟩

/-- The street-suffix keyword list of `looks_like_address`
(main.py 613-616). -/
def addressKeywords : List String :=
  ["AVE", "ST", "STREET", "AVENUE", "ROAD", "RD", "LANE", "LN", "DR", "DRIVE",
   "APT", "SUITE", "PO BOX", "BLVD", "COURT", "CT"]

/-- `looks_like_address` of `extract_representatives_atomic` (main.py):
the text contains a digit, or its uppercasing contains one of the
street-suffix keywords as a substring. -/
def looks_like_address (t : String) : Bool :=
  t.data.any Char.isDigit ||
    addressKeywords.any (fun k => containsSub (pyUpper t) k)

/-- The name/address classification applied to each non-empty trimmed
row text in `extract_representatives_atomic` (main.py 622):
a row is treated as a *name* iff
`not looks_like_address(t) and len(t) < 120`. -/
def isNameRow (t : String) : Bool :=
  !looks_like_address t && t.length < 120

/-- The row-accumulation loop of `extract_representatives_atomic`
(main.py 618-639), with the current name/address accumulator made
explicit.  Empty (all-whitespace) rows are skipped; a name row closes
the current representative (if one is open) and starts a new one; any
other row is concatenated onto the current address. -/
def extractRepsAux : List String → String → String → List Rep
  | [], name, addr =>
      if name ≠ "" then [⟨name, addr⟩] else []
  | raw :: rest, name, addr =>
      let t := pyStrip raw
      if t = "" then extractRepsAux rest name addr
      else if isNameRow t then
        if name ≠ "" then ⟨name, addr⟩ :: extractRepsAux rest t ""
        else extractRepsAux rest t addr
      else
        extractRepsAux rest name (if addr ≠ "" then pyStrip (addr ++ " " ++ t) else t)

/-- `extract_representatives_atomic` (main.py) on the list of row texts
(`tr.evenrow, tr.oddrow` text contents). -/
def extract_representatives_atomic (rows : List String) : List Rep :=
  extractRepsAux rows "" ""

/-! ## Record assembly

`scrape_single_day` (main.py 1012-1030):

```python
base_record = {"case_file_no": ..., "filing_date": ..., "decedent_address": ..., **case_meta}
if reps:
    record_data = [{**base_record, **rep} for rep in reps]
else:
    record_data = [{**base_record, "representative_name": "", "representative_address": ""}]
valid_records = [r for r in record_data
                 if r.get("representative_name") and r.get("representative_address")]
page_records.extend(valid_records)
```

`deep_scrape_all_results` (testing.py 1054-1065) builds the same
cross-product but appends `record_data` unfiltered:

```python
if reps:
    for r in reps:
        all_records.append({**base_record, **r})
else:
    all_records.append({**base_record, "representative_name": "", "representative_address": ""})
```
-/

/-- The decedent/filing/case-id fields shared by every record of one
detail view (`base_record` in both scripts; `case_file_no` is only
extracted in main.py and is empty in the testing.py variant). -/
structure BaseRecord where
  case_file_no : String
  filing_date : String
  decedent_address : String
  caseFileId : String
  caseFileNum : String
deriving Repr, DecidableEq

/-- `{**base_record, **rep}`: one output record from the base fields
plus one representative's fields. -/
def mergeRecord (b : BaseRecord) (r : Rep) : CaseRecord :=
  { case_file_no := b.case_file_no
    filing_date := b.filing_date
    decedent_address := b.decedent_address
    caseFileId := b.caseFileId
    caseFileNum := b.caseFileNum
    representative_name := r.representative_name
    representative_address := r.representative_address }

/-- The `record_data` cross-product of `scrape_single_day` (main.py
1019-1022): one record per representative, or a single record with
empty representative fields when the representative list is empty. -/
def recordData (b : BaseRecord) (reps : List Rep) : List CaseRecord :=
  if reps.isEmpty then [mergeRecord b ⟨"", ""⟩] else reps.map (mergeRecord b)

/-- The `valid_records` filter of `scrape_single_day` (main.py
1024-1028): keep only records whose representative name and address are
both non-empty (Python truthiness of the two strings). -/
def validRecordsOf (recs : List CaseRecord) : List CaseRecord :=
  recs.filter (fun r => r.representative_name ≠ "" ∧ r.representative_address ≠ "")

/-- The record-emission step of `deep_scrape_all_results` (testing.py
1060-1065): the same cross-product as `recordData`, appended with no
validity filter. -/
def deepScrapeEmit (b : BaseRecord) (reps : List Rep) : List CaseRecord :=
  if reps.isEmpty then [mergeRecord b ⟨"", ""⟩] else reps.map (mergeRecord b)

/-! ## The row/page walk of `scrape_single_day` (main.py 895-1077)

The browser-dependent outcome of each row attempt is abstracted as a
`RowOutcome`: whether the row click succeeded (after its 3 internal
retries), whether the detail view loaded (after its 3 retries), the
extracted base fields and representatives, and whether back-navigation
succeeded (after its 3 retries).  Extraction failures already degrade
to empty fields / empty lists in the source, so they need no separate
error case. -/

/-- Abstracted outcome of processing one row index of one results page
in `scrape_single_day` (main.py 941-1049). -/
structure RowOutcome where
  clickOk : Bool
  docOk : Bool
  base : BaseRecord
  reps : List Rep
  backOk : Bool
deriving Repr

/-- The `valid_records` produced by one successfully opened row
(main.py 1012-1028). -/
def rowValidRecords (o : RowOutcome) : List CaseRecord :=
  validRecordsOf (recordData o.base o.reps)

/-- One results page as seen by `scrape_single_day`: whether the
results list appeared (after the 5 load retries, main.py 923-934), the
row outcomes by row index, and whether next-page navigation succeeded
(after its 3 retries, main.py 1059-1065). -/
structure PageEnv where
  resultsLoaded : Bool
  rows : Nat → RowOutcome
  nextOk : Bool

/-- One day's run environment: whether `click_search_button` reported
success, and the results pages by page index (1-based). -/
structure DayEnv where
  searchOk : Bool
  pages : Nat → PageEnv

/-- The row loop of `scrape_single_day` (main.py 941-1049):
`for row_idx in range(40)` with the consecutive-miss counter.
A click miss increments the counter and stops the loop when it
reaches 3; a detail-load miss increments the counter and continues;
a processed row appends its `valid_records`, resets the counter, and
stops the loop if back-navigation fails.  Returns the collected
records and the number of row indices attempted. -/
def rowLoopAux (rows : Nat → RowOutcome) :
    Nat → Nat → Nat → List CaseRecord → List CaseRecord × Nat
  | _, _, 0, acc => (acc, 0)
  | idx, misses, fuel + 1, acc =>
      let o := rows idx
      if o.clickOk = false then
        if misses + 1 ≥ 3 then (acc, 1)
        else
          let r := rowLoopAux rows (idx + 1) (misses + 1) fuel acc
          (r.1, r.2 + 1)
      else if o.docOk = false then
        let r := rowLoopAux rows (idx + 1) (misses + 1) fuel acc
        (r.1, r.2 + 1)
      else
        let acc2 := acc ++ rowValidRecords o
        if o.backOk then
          let r := rowLoopAux rows (idx + 1) 0 fuel acc2
          (r.1, r.2 + 1)
        else (acc2, 1)

/-- All records collected from one results page by the row loop
(`page_records`), together with the number of row indices attempted. -/
def pageRecords (rows : Nat → RowOutcome) : List CaseRecord × Nat :=
  rowLoopAux rows 0 0 40 []

/-- The page loop of `scrape_single_day` (main.py 916-1074):
`while page_index <= max_pages` with `max_pages = 10`.  If the results
list of the current page never loads, the run returns the records
collected so far; otherwise the page's records are appended and the
walk advances to the next page while `page_index < 10` and next-page
navigation succeeds.  Alongside the records it returns a trace of
`(page index, rows attempted)` pairs for the visited pages. -/
def pageLoopAux (pages : Nat → PageEnv) :
    Nat → Nat → List CaseRecord → List (Nat × Nat) →
    List CaseRecord × List (Nat × Nat)
  | _, 0, acc, trace => (acc, trace)
  | idx, fuel + 1, acc, trace =>
      let p := pages idx
      if p.resultsLoaded = false then (acc, trace ++ [(idx, 0)])
      else
        let pr := pageRecords p.rows
        let acc2 := acc ++ pr.1
        let trace2 := trace ++ [(idx, pr.2)]
        if idx < 10 then
          if p.nextOk then pageLoopAux pages (idx + 1) fuel acc2 trace2
          else (acc2, trace2)
        else (acc2, trace2)

/-- `scrape_single_day` (main.py): returns the day's collected records
and the visited-page trace.  A failed search submit returns no
records before the page loop starts (main.py 908-910). -/
def scrape_single_day (env : DayEnv) : List CaseRecord × List (Nat × Nat) :=
  if env.searchOk then pageLoopAux env.pages 1 10 [] [] else ([], [])

/-- The record list returned by `scrape_single_day` (`all_records`). -/
def scrapeRecords (env : DayEnv) : List CaseRecord :=
  (scrape_single_day env).1

/-- The visited-page trace of `scrape_single_day`: one
`(page index, rows attempted)` pair per results page visited. -/
def scrapeTrace (env : DayEnv) : List (Nat × Nat) :=
  (scrape_single_day env).2

/-! ## Frame resolution by name (`wait_for_frame_by_name`, main.py 304-316)

```python
start_time = time.time()
while (time.time() - start_time) * 1000 < timeout:
    frames = parent_frame.child_frames if parent_frame else self.page.frames
    for frame in frames:
        if frame.name == name:
            return frame
    await asyncio.sleep(0.1)
raise PlaywrightTimeoutError(...)
```

The loop scans the frame list, then sleeps 100 ms; the elapsed-time
check happens before each scan, so poll `k` (0-based) occurs at elapsed
time `k * 100` ms and runs iff `k * 100 < timeout`.  The error is
raised only once the observed elapsed time is at least `timeout`.
The asynchronously changing frame tree is abstracted as a function
from the poll index to the frame list seen at that poll. -/

/-- An iframe as seen by the resolver: its name and URL. -/
structure FrameT where
  name : String
  url : String
deriving Repr, DecidableEq

/-- The inner scan of `wait_for_frame_by_name`: first frame in the
list whose name equals `name`. -/
def findFrame (frames : List FrameT) (name : String) : Option FrameT :=
  frames.find? (fun f => f.name == name)

/-- Number of polls performed before the timeout check fails:
polls happen at elapsed times `0, 100, 200, ...` ms, so there are
`⌈timeout / 100⌉` of them. -/
def numPolls (timeoutMs : Nat) : Nat := (timeoutMs + 99) / 100

/-- The polling loop of `wait_for_frame_by_name`, fueled by the number
of remaining polls; `k` is the current poll index. -/
def waitPollLoop (framesAt : Nat → List FrameT) (name : String) :
    Nat → Nat → Option FrameT
  | _, 0 => none
  | k, fuel + 1 =>
      match findFrame (framesAt k) name with
      | some f => some f
      | none => waitPollLoop framesAt name (k + 1) fuel

/-- `wait_for_frame_by_name` (main.py): poll the frame tree every
100 ms until a frame with the requested name appears; `none` models the
`PlaywrightTimeoutError` raised when the timeout elapses first. -/
def wait_for_frame_by_name (framesAt : Nat → List FrameT) (name : String)
    (timeoutMs : Nat) : Option FrameT :=
  waitPollLoop framesAt name 0 (numPolls timeoutMs)

/-- Elapsed time (ms) at the moment the loop gives up and raises:
each performed poll is followed by a 100 ms sleep, and the while
condition is re-checked after the last sleep. -/
def elapsedOnTimeout (timeoutMs : Nat) : Nat := numPolls timeoutMs * 100

/-! ## Date normalization (`enter_filing_dates`, testing.py 193-196 and
test2.py 183-186)

```python
async def enter_filing_dates(self, from_date="01/01/2025", to_date=None, retries=3):
    if to_date is None:
        to_date = datetime.today().strftime("%m/%d/%Y")
```

`datetime.today().strftime("%m/%d/%Y")` is modelled for calendar dates
with `month ≤ 12`, `day ≤ 31` and `year ≤ 9999`: `%m` and `%d` are the
zero-padded two-digit month and day, `%Y` the zero-padded four-digit
year. -/

/-- A calendar date (the value of `datetime.today()`). -/
structure Date where
  month : Nat
  day : Nat
  year : Nat
deriving Repr, DecidableEq

/-- `month ≤ 12`, `1 ≤ day ≤ 31`, `1000 ≤ year ≤ 9999`: the range on
which the `strftime` model below is exact. -/
def Date.valid (d : Date) : Prop :=
  1 ≤ d.month ∧ d.month ≤ 12 ∧ 1 ≤ d.day ∧ d.day ≤ 31 ∧
    1000 ≤ d.year ∧ d.year ≤ 9999

instance : DecidablePred Date.valid := fun d => by
  unfold Date.valid; infer_instance

/-- The decimal digit character for `d % 10`. -/
def digitChar (d : Nat) : Char :=
  (['0', '1', '2', '3', '4', '5', '6', '7', '8', '9']).getD (d % 10) '0'

/-- Zero-padded two-digit rendering (`%m`, `%d` for values below 100). -/
def pad2 (n : Nat) : String :=
  ⟨[digitChar (n / 10), digitChar n]⟩

/-- Zero-padded four-digit rendering (`%Y` for years below 10000). -/
def pad4 (n : Nat) : String :=
  ⟨[digitChar (n / 1000), digitChar (n / 100), digitChar (n / 10), digitChar n]⟩

/-- `datetime.today().strftime("%m/%d/%Y")` for an in-range date. -/
def formatMDY (d : Date) : String :=
  pad2 d.month ++ "/" ++ pad2 d.day ++ "/" ++ pad4 d.year

/-- The date-normalization step of `enter_filing_dates` (testing.py /
test2.py): `to_date` defaults to today's `MM/DD/YYYY` rendering when
unspecified; the pair returned is `(from, to)` exactly as typed into
the two date inputs. -/
def enter_filing_dates (from_date : String) (to_date : Option String)
    (today : Date) : String × String :=
  let to_d := match to_date with
    | none => formatMDY today
    | some s => s
  (from_date, to_d)

/-- Shape check for `MM/DD/YYYY`: ten characters, digits everywhere
except slashes at positions 2 and 5. -/
def isMMDDYYYY (s : String) : Bool :=
  match s.data with
  | [m1, m2, s1, d1, d2, s2, y1, y2, y3, y4] =>
      m1.isDigit && m2.isDigit && s1 == '/' && d1.isDigit && d2.isDigit &&
        s2 == '/' && y1.isDigit && y2.isDigit && y3.isDigit && y4.isDigit
  | _ => false

/-! ## Example inputs used by concrete instances below -/

/-- A sample base record (decedent/filing/case-id fields). -/
def exBase : BaseRecord :=
  ⟨"CF-2026-123", "10/01/2026", "1 Elm St, Media, PA, 19063", "770001", "880001"⟩

/-- A sample representative with both fields non-empty. -/
def repJane : Rep := ⟨"JANE DOE", "9 OAK AVE"⟩

/-- The record obtained by merging `exBase` with `repJane`. -/
def recJane : CaseRecord := mergeRecord exBase repJane

/-- A row that opens fine and yields one complete representative. -/
def okRow : RowOutcome := ⟨true, true, exBase, [repJane], true⟩

/-- A row that opens fine and yields the same representative twice
(duplicate data on the page). -/
def dupRow : RowOutcome := ⟨true, true, exBase, [repJane, repJane], true⟩

/-- A row that opens fine and has no representative section. -/
def emptyRepRow : RowOutcome := ⟨true, true, exBase, [], true⟩

/-- A row that opens fine and yields one representative with no
address. -/
def noAddrRow : RowOutcome := ⟨true, true, exBase, [⟨"JANE DOE", ""⟩], true⟩

/-- A row whose click never succeeds. -/
def clickMissRow : RowOutcome := ⟨false, true, exBase, [], true⟩

/-- A row whose click succeeds but whose detail view never loads. -/
def docMissRow : RowOutcome := ⟨true, false, exBase, [], true⟩

/-- Row-outcome function from a finite list: rows past the end of the
list behave as click misses (the indices are absent on the page). -/
def rowsFrom (l : List RowOutcome) : Nat → RowOutcome :=
  fun i => l.getD i clickMissRow

/-- A one-page run: the search succeeds, page 1 holds the given rows,
and no further results page exists. -/
def onePageEnv (l : List RowOutcome) : DayEnv :=
  ⟨true, fun i =>
    if i = 1 then ⟨true, rowsFrom l, false⟩ else ⟨false, rowsFrom [], false⟩⟩

/-- A fully clean run: every page loads, every row opens and returns,
row 0 of each page yields duplicate records and the other rows yield
none. -/
def cleanEnvEx : DayEnv :=
  ⟨true, fun _ => ⟨true, fun j => if j = 0 then dupRow else emptyRepRow, true⟩⟩

/-- The run environment of the C4 counterexample: two click misses and
a detail-load miss (three consecutive misses), then a good row. -/
def envC4 : DayEnv :=
  onePageEnv [clickMissRow, clickMissRow, docMissRow, okRow]

/-! # Theorems -/

/-- Every record passing the `valid_records` filter of
`scrape_single_day` has non-empty representative fields. -/
theorem mem_validRecordsOf {r : CaseRecord} {l : List CaseRecord}
    (h : r ∈ validRecordsOf l) :
    r.representative_name ≠ "" ∧ r.representative_address ≠ "" := by
  have := List.mem_filter.mp h
  simpa using this.2

/-- C6: `decedentAddress` equals the `", "`-join of exactly the
non-empty fragments among street, city, state, zip, in that order:
with all four present it is `"123 Main St, Media, PA, 19063"`, with
only city and zip present it is `"Media, 19063"`, and in general it is
the intercalation of the non-empty fragments, so empty fragments are
skipped rather than rendered as empty comma positions
(`extract_decedent_info_atomic`, main.py 584-593). -/
theorem C6_address_assembly :
    assembleAddress "123 Main St" "Media" "PA" "19063"
        = "123 Main St, Media, PA, 19063"
    ∧ assembleAddress "" "Media" "" "19063" = "Media, 19063"
    ∧ ∀ a c s z : String,
        assembleAddress a c s z
          = String.intercalate ", " ([a, c, s, z].filter (fun p => p ≠ "")) := by
  refine ⟨by decide, by decide, ?_⟩
  intro a c s z
  unfold assembleAddress
  rcases h : [a, c, s, z].filter (fun p => p ≠ "") with _ | ⟨p, ps⟩
  · simp only [h, List.isEmpty_nil, if_true]
    rfl
  · simp [h]

/-- C1 counterexample: in `scrape_single_day` (main.py), a detail view
with zero representative rows contributes nothing to the run's output:
the single empty-representative record is built and then removed by the
`valid_records` filter, so the run returns no record at all for such a
case. -/
theorem C1_counterexample :
    emptyRepRow.reps = [] ∧ emptyRepRow.clickOk = true
    ∧ emptyRepRow.docOk = true
    ∧ scrapeRecords (onePageEnv [emptyRepRow]) = [] := by
  refine ⟨rfl, rfl, rfl, ?_⟩
  decide

/-- C1 amended: for a detail view with zero representative rows, the
cross-product step still builds exactly one record with empty
representative fields, and `deep_scrape_all_results` (testing.py)
emits it; but in `scrape_single_day` (main.py) the `valid_records`
filter removes it, so decedent-only cases are dropped from that run's
output. -/
theorem C1_amended (b : BaseRecord) :
    deepScrapeEmit b [] = [mergeRecord b ⟨"", ""⟩]
    ∧ (deepScrapeEmit b []).length = 1
    ∧ (∀ r ∈ deepScrapeEmit b [],
        r.representative_name = "" ∧ r.representative_address = "")
    ∧ recordData b [] = [mergeRecord b ⟨"", ""⟩]
    ∧ validRecordsOf (recordData b []) = [] := by
  refine ⟨rfl, rfl, ?_, rfl, ?_⟩
  · intro r hr
    have : r = mergeRecord b ⟨"", ""⟩ := by
      simpa [deepScrapeEmit] using hr
    subst this
    exact ⟨rfl, rfl⟩
  · simp [validRecordsOf, recordData, mergeRecord]

/-- Closed instance of `C1_amended` at the sample base record. -/
theorem C1_amended_witness :
    deepScrapeEmit exBase [] = [mergeRecord exBase ⟨"", ""⟩]
    ∧ validRecordsOf (recordData exBase []) = [] :=
  ⟨(C1_amended exBase).1, (C1_amended exBase).2.2.2.2⟩

/-- C2 counterexample: a detail view listing exactly one representative
(with an empty address) makes `scrape_single_day` (main.py) emit zero
records, not one: the `valid_records` filter drops any representative
record whose name or address is empty. -/
theorem C2_counterexample :
    noAddrRow.reps.length = 1 ∧ rowValidRecords noAddrRow = []
    ∧ scrapeRecords (onePageEnv [noAddrRow]) = [] := by
  refine ⟨rfl, rfl, ?_⟩
  decide

/-- C2 amended: for a detail view with `N ≥ 1` representatives,
`deep_scrape_all_results` (testing.py) emits exactly `N` records, one
per representative, all sharing the base record's `case_file_no`,
`filing_date`, `decedent_address`, `caseFileId` and `caseFileNum`, and
differing only in the representative fields; `scrape_single_day`
(main.py) builds the same `N` records but emits only those whose
representative name and address are both non-empty. -/
theorem C2_amended (b : BaseRecord) (reps : List Rep) (h : reps ≠ []) :
    (deepScrapeEmit b reps).length = reps.length
    ∧ deepScrapeEmit b reps = reps.map (mergeRecord b)
    ∧ (∀ r ∈ deepScrapeEmit b reps,
        r.case_file_no = b.case_file_no ∧ r.filing_date = b.filing_date
        ∧ r.decedent_address = b.decedent_address
        ∧ r.caseFileId = b.caseFileId ∧ r.caseFileNum = b.caseFileNum
        ∧ ∃ p ∈ reps, r.representative_name = p.representative_name
            ∧ r.representative_address = p.representative_address)
    ∧ validRecordsOf (recordData b reps)
        = (reps.map (mergeRecord b)).filter
            (fun r => r.representative_name ≠ ""
              ∧ r.representative_address ≠ "") := by
  have hne : reps.isEmpty = false := by
    cases reps with
    | nil => exact absurd rfl h
    | cons p ps => rfl
  refine ⟨?_, ?_, ?_, ?_⟩
  · simp [deepScrapeEmit, hne]
  · simp [deepScrapeEmit, hne]
  · intro r hr
    rw [deepScrapeEmit, hne] at hr
    simp only [Bool.false_eq_true, if_false] at hr
    rcases List.mem_map.mp hr with ⟨p, hp, rfl⟩
    exact ⟨rfl, rfl, rfl, rfl, rfl, p, hp, rfl, rfl⟩
  · simp [validRecordsOf, recordData, hne]

/-- Closed instance of `C2_amended`: one representative in, one record
out of the testing.py emitter, and the main.py filter keeps it because
both fields are non-empty. -/
theorem C2_amended_witness :
    (deepScrapeEmit exBase [repJane]).length = [repJane].length
    ∧ deepScrapeEmit exBase [repJane] = [repJane].map (mergeRecord exBase) :=
  ⟨(C2_amended exBase [repJane] (by decide)).1,
   (C2_amended exBase [repJane] (by decide)).2.1⟩

/-- C4 counterexample: on a page whose rows 0 and 1 are click misses
and whose row 2 is a detail-load miss — three consecutive misses — the
row loop of `scrape_single_day` does **not** stop: it goes on to
attempt row 3 (the trace records 7 attempted row indices on page 1)
and collects row 3's record.  The stop check runs only in the
click-miss branch. -/
theorem C4_counterexample :
    (rowsFrom [clickMissRow, clickMissRow, docMissRow, okRow] 0).clickOk = false
    ∧ (rowsFrom [clickMissRow, clickMissRow, docMissRow, okRow] 1).clickOk = false
    ∧ (rowsFrom [clickMissRow, clickMissRow, docMissRow, okRow] 2).clickOk = true
    ∧ (rowsFrom [clickMissRow, clickMissRow, docMissRow, okRow] 2).docOk = false
    ∧ scrapeTrace envC4 = [(1, 7)]
    ∧ scrapeRecords envC4 = [recJane] := by
  refine ⟨rfl, rfl, rfl, rfl, ?_, ?_⟩ <;> decide

/-- C4 amended: both a row-click miss and a detail-load miss increment
the consecutive-miss counter, but the early-stop check runs only in
the click-miss branch: whenever a row-click miss brings the counter to
3 or more, the row loop stops immediately — that row is the only one
attempted from there on — and the records already collected are
returned unchanged, hence retained in the run's output.  A detail-load
miss never triggers the stop, even as the third consecutive miss. -/
theorem C4_amended (rows : Nat → RowOutcome) (idx misses fuel : Nat)
    (acc : List CaseRecord) (hclick : (rows idx).clickOk = false)
    (hmiss : 3 ≤ misses + 1) :
    rowLoopAux rows idx misses (fuel + 1) acc = (acc, 1) := by
  simp [rowLoopAux, hclick, hmiss]

/-- Closed instance of `C4_amended`: a click miss with two prior
consecutive misses stops the loop at once and keeps the collected
record. -/
theorem C4_amended_witness :
    rowLoopAux (rowsFrom [clickMissRow]) 0 2 40 [recJane] = ([recJane], 1) :=
  C4_amended (rowsFrom [clickMissRow]) 0 2 39 [recJane] (by decide) (by decide)

/-- C5 counterexample: the row text `"DAVE"` is short (4 < 120
characters) and digit-free, yet `extract_representatives_atomic`
(main.py) classifies it as an address continuation, because the
street-suffix check is a substring test and `"DAVE"` contains `"AVE"`:
after a name row `"JOHN SMITH"`, the row `"DAVE"` becomes John Smith's
address instead of starting a new representative. -/
theorem C5_counterexample :
    "DAVE".length < 120
    ∧ "DAVE".data.any Char.isDigit = false
    ∧ isNameRow "DAVE" = false
    ∧ extract_representatives_atomic ["JOHN SMITH", "DAVE"]
        = [⟨"JOHN SMITH", "DAVE"⟩] := by
  refine ⟨by decide, by decide, by decide, by decide⟩

/-- C5 amended: in `extract_representatives_atomic` (main.py), a
non-empty trimmed row is classified as a name exactly when it is short
(< 120 characters), digit-free, **and** its uppercasing contains no
street-suffix keyword as a substring; otherwise (a digit, a keyword
occurrence, or length ≥ 120) it is an address continuation.  Each
address row is space-concatenated onto the current address, and each
name row, when a name is already current, closes that representative
and starts a new one. -/
theorem C5_amended :
    (∀ t : String, isNameRow t = true ↔
      (t.length < 120 ∧ (∀ c ∈ t.data, c.isDigit = false)
        ∧ ∀ k ∈ addressKeywords, containsSub (pyUpper t) k = false))
    ∧ (∀ (rest : List String) (n a t : String), pyStrip t = t → t ≠ "" →
        isNameRow t = false →
        extractRepsAux (t :: rest) n a
          = extractRepsAux rest n (if a ≠ "" then pyStrip (a ++ " " ++ t) else t))
    ∧ (∀ (rest : List String) (n a t : String), pyStrip t = t → t ≠ "" →
        isNameRow t = true → n ≠ "" →
        extractRepsAux (t :: rest) n a = ⟨n, a⟩ :: extractRepsAux rest t "") := by
  refine ⟨?_, ?_, ?_⟩
  · intro t
    simp only [isNameRow, looks_like_address, Bool.and_eq_true,
      Bool.not_eq_true', Bool.or_eq_false_iff, List.any_eq_false,
      decide_eq_true_eq, Bool.not_eq_true]
    tauto
  · intro rest n a t ht hne hname
    conv_lhs => rw [extractRepsAux]
    rw [ht, if_neg hne, if_neg (by simp [hname])]
  · intro rest n a t ht hne hname hn
    conv_lhs => rw [extractRepsAux]
    rw [ht, if_neg hne, if_pos (by simp [hname]), if_pos hn]

/-- Closed instance of `C5_amended`: the address row `"9 OAK AVE"` is
concatenated onto the open representative's (empty) address. -/
theorem C5_amended_witness :
    extractRepsAux ["9 OAK AVE"] "JANE DOE" ""
      = extractRepsAux [] "JANE DOE" "9 OAK AVE" := by
  have h := C5_amended.2.1 [] "JANE DOE" "" "9 OAK AVE"
    (by decide) (by decide) (by decide)
  simpa using h

/-- Check that the concrete extraction of the C5 counterexample matches
the step equations: evaluating the full extractor agrees with the
classification. -/
theorem extract_reps_example :
    extract_representatives_atomic
        ["JANE DOE", "123 OAK AVE", "MEDIA PA 19063", "BOB JONES"]
      = [⟨"JANE DOE", "123 OAK AVE MEDIA PA 19063"⟩, ⟨"BOB JONES", ""⟩] := by
  decide

/-- Any record in the row loop's result either was already in the
accumulator or is one of the `valid_records` of some row outcome. -/
theorem rowLoopAux_mem (rows : Nat → RowOutcome) :
    ∀ (fuel idx misses : Nat) (acc : List CaseRecord) (r : CaseRecord),
      r ∈ (rowLoopAux rows idx misses fuel acc).1 →
      r ∈ acc ∨ ∃ j, r ∈ rowValidRecords (rows j) := by
  intro fuel
  induction fuel with
  | zero =>
      intro idx misses acc r hr
      exact Or.inl (by simpa [rowLoopAux] using hr)
  | succ n ih =>
      intro idx misses acc r hr
      simp only [rowLoopAux] at hr
      split at hr
      · split at hr
        · exact Or.inl hr
        · simp only at hr
          exact ih _ _ _ _ hr
      · split at hr
        · simp only at hr
          exact ih _ _ _ _ hr
        · split at hr
          · simp only at hr
            rcases ih _ _ _ _ hr with h | h
            · rcases List.mem_append.mp h with h' | h'
              · exact Or.inl h'
              · exact Or.inr ⟨idx, h'⟩
            · exact Or.inr h
          · rcases List.mem_append.mp hr with h' | h'
            · exact Or.inl h'
            · exact Or.inr ⟨idx, h'⟩

/-- Any record in the page loop's result either was already in the
accumulator or is one of the `valid_records` of some row of some
page. -/
theorem pageLoopAux_mem (pages : Nat → PageEnv) :
    ∀ (fuel idx : Nat) (acc : List CaseRecord) (trace : List (Nat × Nat))
      (r : CaseRecord),
      r ∈ (pageLoopAux pages idx fuel acc trace).1 →
      r ∈ acc ∨ ∃ i j, r ∈ rowValidRecords ((pages i).rows j) := by
  intro fuel
  induction fuel with
  | zero =>
      intro idx acc trace r hr
      exact Or.inl (by simpa [pageLoopAux] using hr)
  | succ n ih =>
      intro idx acc trace r hr
      simp only [pageLoopAux] at hr
      split at hr
      · exact Or.inl hr
      · have hstep :
            ∀ hr' : r ∈ acc ++ (pageRecords (pages idx).rows).1,
              r ∈ acc ∨ ∃ i j, r ∈ rowValidRecords ((pages i).rows j) := by
          intro hr'
          rcases List.mem_append.mp hr' with h' | h'
          · exact Or.inl h'
          · rcases rowLoopAux_mem (pages idx).rows 40 0 0 [] r h' with h | h
            · cases h
            · exact Or.inr ⟨idx, h⟩
        split at hr
        · split at hr
          · rcases ih _ _ _ _ hr with h | h
            · exact hstep h
            · exact Or.inr h
          · exact hstep hr
        · exact hstep hr

/-- C3: every record in the list returned by `scrape_single_day`
(main.py) has a non-empty representative name and a non-empty
representative address — the `valid_records` filter removes every
record with an empty representative field before it is collected, so
the returned sequence never contains a decedent-only row. -/
theorem C3_no_decedent_only_rows (env : DayEnv) :
    ∀ r ∈ scrapeRecords env,
      r.representative_name ≠ "" ∧ r.representative_address ≠ "" := by
  intro r hr
  unfold scrapeRecords scrape_single_day at hr
  by_cases hs : env.searchOk
  · rw [if_pos hs] at hr
    rcases pageLoopAux_mem env.pages 10 1 [] [] r hr with h | ⟨_, _, hj⟩
    · cases h
    · exact mem_validRecordsOf (by simpa [rowValidRecords] using hj)
  · rw [if_neg hs] at hr
    cases hr

/-- Closed instance of `C3_no_decedent_only_rows` at a concrete
one-page run whose output is `[recJane]`. -/
theorem C3_witness :
    recJane.representative_name ≠ "" ∧ recJane.representative_address ≠ "" :=
  C3_no_decedent_only_rows (onePageEnv [okRow]) recJane (by decide)

/-- `digitChar` always yields a decimal digit character. -/
theorem digitChar_isDigit (d : Nat) : (digitChar d).isDigit = true := by
  unfold digitChar
  have h : d % 10 < 10 := Nat.mod_lt _ (by norm_num)
  set m := d % 10 with hm
  interval_cases m <;> rfl

/-- The character list of `formatMDY`, made explicit. -/
theorem formatMDY_data (d : Date) :
    (formatMDY d).data
      = [digitChar (d.month / 10), digitChar d.month, '/',
         digitChar (d.day / 10), digitChar d.day, '/',
         digitChar (d.year / 1000), digitChar (d.year / 100),
         digitChar (d.year / 10), digitChar d.year] := rfl

/-- `formatMDY` always renders in `MM/DD/YYYY` shape. -/
theorem isMMDDYYYY_formatMDY (d : Date) : isMMDDYYYY (formatMDY d) = true := by
  simp only [isMMDDYYYY, formatMDY_data]
  simp [digitChar_isDigit]

/-- C7: when a date range is entered with `toDate` unspecified,
`enter_filing_dates` (testing.py / test2.py) normalizes `toDate` to the
current date rendered as `MM/DD/YYYY` before typing it into the to-date
input, and the given `fromDate` is passed through unchanged (an
explicitly given `toDate` is likewise passed through). -/
theorem C7_to_date_default (f : String) (today : Date) (_h : today.valid) :
    enter_filing_dates f none today = (f, formatMDY today)
    ∧ (enter_filing_dates f none today).1 = f
    ∧ isMMDDYYYY (enter_filing_dates f none today).2 = true
    ∧ ∀ s, enter_filing_dates f (some s) today = (f, s) :=
  ⟨rfl, rfl, isMMDDYYYY_formatMDY today, fun _ => rfl⟩

/-- Closed instance of `C7_to_date_default` at the spec's example
`fromDate = "01/01/2025"` and a concrete current date. -/
theorem C7_witness :
    enter_filing_dates "01/01/2025" none ⟨10, 12, 2026⟩
        = ("01/01/2025", formatMDY ⟨10, 12, 2026⟩)
    ∧ isMMDDYYYY (enter_filing_dates "01/01/2025" none ⟨10, 12, 2026⟩).2
        = true :=
  ⟨(C7_to_date_default "01/01/2025" ⟨10, 12, 2026⟩ (by decide)).1,
   (C7_to_date_default "01/01/2025" ⟨10, 12, 2026⟩ (by decide)).2.2.1⟩

/-- Poll index vs. elapsed time: poll `k` runs iff its start time
`k * 100` ms is still below the timeout. -/
theorem lt_numPolls_iff (k t : Nat) : k < numPolls t ↔ k * 100 < t := by
  unfold numPolls
  constructor
  · intro h
    have h' : (k + 1) * 100 ≤ t + 99 :=
      (Nat.le_div_iff_mul_le (by norm_num)).mp h
    omega
  · intro h
    exact (Nat.le_div_iff_mul_le (by norm_num)).mpr (by omega)

/-- The loop gives up only once the elapsed time reaches the timeout. -/
theorem timeout_le_elapsed (t : Nat) : t ≤ elapsedOnTimeout t := by
  unfold elapsedOnTimeout numPolls
  have h1 := Nat.div_add_mod (t + 99) 100
  have h2 : (t + 99) % 100 < 100 := Nat.mod_lt _ (by norm_num)
  omega

/-- If no poll in the fueled window finds the frame, the poll loop
returns `none`. -/
theorem waitPollLoop_none (framesAt : Nat → List FrameT) (name : String) :
    ∀ (fuel k : Nat),
      (∀ j, k ≤ j → j < k + fuel → findFrame (framesAt j) name = none) →
      waitPollLoop framesAt name k fuel = none := by
  intro fuel
  induction fuel with
  | zero => intro k _; rfl
  | succ n ih =>
      intro k h
      have hk := h k (le_refl k) (by omega)
      simp only [waitPollLoop, hk]
      exact ih (k + 1) (fun j hj1 hj2 => h j (by omega) (by omega))

/-- If some poll in the fueled window sees the frame, the poll loop
returns a frame. -/
theorem waitPollLoop_some (framesAt : Nat → List FrameT) (name : String) :
    ∀ (fuel k j : Nat), k ≤ j → j < k + fuel →
      findFrame (framesAt j) name ≠ none →
      ∃ f, waitPollLoop framesAt name k fuel = some f := by
  intro fuel
  induction fuel with
  | zero => intro k j h1 h2 _; omega
  | succ n ih =>
      intro k j h1 h2 h3
      cases hf : findFrame (framesAt k) name with
      | some f => exact ⟨f, by simp [waitPollLoop, hf]⟩
      | none =>
          have hjk : j ≠ k := fun he => h3 (he ▸ hf)
          have hrec := ih (k + 1) j (by omega) (by omega) h3
          simpa [waitPollLoop, hf] using hrec

/-- C8: for every `(name, timeout)`, if no frame with that name is
present at any poll before the timeout, `wait_for_frame_by_name`
(main.py) raises its timeout error (`none`) only after at least the
full timeout has elapsed — never on an earlier missed poll — and if a
matching frame is present at some poll before the timeout, it returns
a frame instead of raising. -/
theorem C8_resolve_by_name_timing (framesAt : Nat → List FrameT)
    (name : String) (timeout : Nat) :
    ((∀ k, k * 100 < timeout → findFrame (framesAt k) name = none) →
      wait_for_frame_by_name framesAt name timeout = none
      ∧ timeout ≤ elapsedOnTimeout timeout)
    ∧ (∀ k, k * 100 < timeout → findFrame (framesAt k) name ≠ none →
        ∃ f, wait_for_frame_by_name framesAt name timeout = some f) := by
  constructor
  · intro h
    refine ⟨?_, timeout_le_elapsed timeout⟩
    exact waitPollLoop_none framesAt name (numPolls timeout) 0
      (fun j _ hj2 => h j ((lt_numPolls_iff j timeout).mp (by omega)))
  · intro k hk hne
    exact waitPollLoop_some framesAt name (numPolls timeout) 0 k
      (Nat.zero_le k)
      (by have := (lt_numPolls_iff k timeout).mpr hk; omega) hne

/-- Closed instance of `C8_resolve_by_name_timing`: with an empty frame
tree at every poll, a 500 ms wait returns the timeout error and the
elapsed time is at least the timeout. -/
theorem C8_witness :
    wait_for_frame_by_name (fun _ => ([] : List FrameT)) "bodyframe" 500
        = none
    ∧ 500 ≤ elapsedOnTimeout 500 :=
  (C8_resolve_by_name_timing (fun _ => []) "bodyframe" 500).1
    (fun _ _ => rfl)

/-- On a page where every row click, detail load and back navigation
succeeds, the row loop emits exactly the concatenation, in ascending
row order, of each row's `valid_records`, and attempts all `fuel`
row indices. -/
theorem rowLoopAux_clean (rows : Nat → RowOutcome) :
    ∀ (fuel idx : Nat) (acc : List CaseRecord),
      (∀ j, idx ≤ j → j < idx + fuel →
        (rows j).clickOk = true ∧ (rows j).docOk = true
          ∧ (rows j).backOk = true) →
      rowLoopAux rows idx 0 fuel acc
        = (acc ++ ((List.range' idx fuel).map
            (fun j => rowValidRecords (rows j))).flatten, fuel) := by
  intro fuel
  induction fuel with
  | zero => intro idx acc _; simp [rowLoopAux]
  | succ n ih =>
      intro idx acc h
      obtain ⟨hc, hd, hb⟩ := h idx (le_refl idx) (by omega)
      simp only [rowLoopAux, hc, hd, hb]
      rw [ih (idx + 1) (acc ++ rowValidRecords (rows idx))
        (fun j hj1 hj2 => h j (by omega) (by omega))]
      simp [List.range'_succ, List.append_assoc]

/-- On a clean run the page loop appends, in ascending page order, the
row-ordered records of each page, and the trace records each visited
page with all 40 rows attempted. -/
theorem pageLoopAux_clean (pages : Nat → PageEnv) :
    ∀ (fuel idx : Nat) (acc : List CaseRecord) (trace : List (Nat × Nat)),
      idx + fuel = 11 →
      (∀ i, idx ≤ i → i ≤ 10 →
        (pages i).resultsLoaded = true ∧ (pages i).nextOk = true
        ∧ ∀ j, j < 40 → ((pages i).rows j).clickOk = true
            ∧ ((pages i).rows j).docOk = true
            ∧ ((pages i).rows j).backOk = true) →
      pageLoopAux pages idx fuel acc trace
        = (acc ++ ((List.range' idx fuel).map
              (fun i => ((List.range' 0 40).map
                (fun j => rowValidRecords ((pages i).rows j))).flatten)).flatten,
           trace ++ (List.range' idx fuel).map (fun i => (i, 40))) := by
  intro fuel
  induction fuel with
  | zero => intro idx acc trace _ _; simp [pageLoopAux]
  | succ n ih =>
      intro idx acc trace hidx h
      obtain ⟨hload, hnext, hrows⟩ := h idx (le_refl idx) (by omega)
      have hpage : pageRecords (pages idx).rows
          = (((List.range' 0 40).map
              (fun j => rowValidRecords ((pages idx).rows j))).flatten, 40) := by
        unfold pageRecords
        rw [rowLoopAux_clean (pages idx).rows 40 0 []
          (fun j _ hj2 => hrows j (by omega))]
        simp
      simp only [pageLoopAux, hload, hnext, hpage]
      by_cases hlt : idx < 10
      · rw [if_pos hlt]
        rw [ih (idx + 1) _ _ (by omega)
          (fun i hi1 hi2 => h i (by omega) hi2)]
        simp [List.range'_succ, List.append_assoc]
      · have hidx10 : idx = 10 := by omega
        have hn0 : n = 0 := by omega
        rw [if_neg hlt]
        subst hidx10 hn0
        simp [List.range'_succ]

/-- C9: on a run in which the search succeeds and every page load, row
click, detail load, back navigation and next-page navigation succeeds,
`scrape_single_day` (main.py) returns exactly the concatenation of the
rows' `valid_records` lists — rows in the order they appear on each
page (indices 0..39), pages in ascending page-index order starting
at 1 — with no internal reordering and no deduplication (duplicate
records are kept as-is by the concatenation). -/
theorem C9_ordering (env : DayEnv) (hs : env.searchOk = true)
    (hp : ∀ i, 1 ≤ i → i ≤ 10 →
      (env.pages i).resultsLoaded = true ∧ (env.pages i).nextOk = true
      ∧ ∀ j, j < 40 → ((env.pages i).rows j).clickOk = true
          ∧ ((env.pages i).rows j).docOk = true
          ∧ ((env.pages i).rows j).backOk = true) :
    scrapeRecords env
      = ((List.range' 1 10).map
          (fun i => ((List.range' 0 40).map
            (fun j => rowValidRecords ((env.pages i).rows j))).flatten)).flatten := by
  unfold scrapeRecords scrape_single_day
  rw [if_pos hs, pageLoopAux_clean env.pages 10 1 [] [] (by omega) hp]
  simp

/-- Closed instance of `C9_ordering` on a clean run whose first row of
every page yields the same record twice: the output is the ordered
flatten, duplicates preserved. -/
theorem C9_witness :
    scrapeRecords cleanEnvEx
      = ((List.range' 1 10).map
          (fun i => ((List.range' 0 40).map
            (fun j => rowValidRecords ((cleanEnvEx.pages i).rows j))).flatten)).flatten :=
  C9_ordering cleanEnvEx rfl
    (fun i _ _ => ⟨rfl, rfl, fun j _ => by
      by_cases hj : j = 0 <;>
        simp [cleanEnvEx, dupRow, emptyRepRow, hj]⟩)

/-- The row loop attempts at most `fuel` row indices. -/
theorem rowLoopAux_attempts_le (rows : Nat → RowOutcome) :
    ∀ (fuel idx misses : Nat) (acc : List CaseRecord),
      (rowLoopAux rows idx misses fuel acc).2 ≤ fuel := by
  intro fuel
  induction fuel with
  | zero => intro idx misses acc; simp [rowLoopAux]
  | succ n ih =>
      intro idx misses acc
      simp only [rowLoopAux]
      split
      · split
        · simp
        · have := ih (idx + 1) (misses + 1) acc
          simp only []
          omega
      · split
        · have := ih (idx + 1) (misses + 1) acc
          simp only []
          omega
        · split
          · have := ih (idx + 1) 0 (acc ++ rowValidRecords (rows idx))
            simp only []
            omega
          · simp

/-- The page-loop trace grows by at most `fuel` entries, and every new
entry names a page index in the fueled window with at most 40 rows
attempted. -/
theorem pageLoopAux_trace (pages : Nat → PageEnv) :
    ∀ (fuel idx : Nat) (acc : List CaseRecord) (trace : List (Nat × Nat)),
      (pageLoopAux pages idx fuel acc trace).2.length ≤ trace.length + fuel
      ∧ ∀ pr ∈ (pageLoopAux pages idx fuel acc trace).2,
          pr ∈ trace ∨ (idx ≤ pr.1 ∧ pr.1 < idx + fuel ∧ pr.2 ≤ 40) := by
  intro fuel
  induction fuel with
  | zero =>
      intro idx acc trace
      exact ⟨by simp [pageLoopAux], fun pr hpr =>
        Or.inl (by simpa [pageLoopAux] using hpr)⟩
  | succ n ih =>
      intro idx acc trace
      simp only [pageLoopAux]
      have hrow := rowLoopAux_attempts_le (pages idx).rows 40 0 0 []
      have hext : ∀ m : Nat, m ≤ 40 →
          ∀ pr ∈ trace ++ [(idx, m)],
            pr ∈ trace ∨ (idx ≤ pr.1 ∧ pr.1 < idx + (n + 1) ∧ pr.2 ≤ 40) := by
        intro m hm pr hpr
        rcases List.mem_append.mp hpr with h' | h'
        · exact Or.inl h'
        · rcases List.mem_singleton.mp h' with rfl
          exact Or.inr ⟨le_refl idx, by omega, hm⟩
      split
      · constructor
        · simp
        · exact hext 0 (by omega)
      · split
        · split
          · constructor
            · have := (ih (idx + 1) (acc ++ (pageRecords (pages idx).rows).1)
                (trace ++ [(idx, (pageRecords (pages idx).rows).2)])).1
              simp only [List.length_append, List.length_singleton] at this
              omega
            · intro pr hpr
              rcases (ih (idx + 1) (acc ++ (pageRecords (pages idx).rows).1)
                (trace ++ [(idx, (pageRecords (pages idx).rows).2)])).2 pr hpr
                with h' | h'
              · rcases hext (pageRecords (pages idx).rows).2 hrow pr h'
                  with h'' | h''
                · exact Or.inl h''
                · exact Or.inr ⟨h''.1, by omega, h''.2.2⟩
              · exact Or.inr ⟨by omega, by omega, h'.2.2⟩
          · constructor
            · simp
            · exact hext (pageRecords (pages idx).rows).2 hrow
        · constructor
          · simp
          · exact hext (pageRecords (pages idx).rows).2 hrow

/-- C10: the results walk of `scrape_single_day` (main.py) is bounded:
the run visits at most 10 results pages, every visited page index lies
between 1 and 10, and at most 40 row indices are attempted on each
visited page — the page/row loop cannot iterate beyond these fixed
bounds even against a misbehaving next-page affordance (and the model
is a total function, so the walk always terminates). -/
theorem C10_bounded_walk (env : DayEnv) :
    (scrapeTrace env).length ≤ 10
    ∧ ∀ pr ∈ scrapeTrace env, 1 ≤ pr.1 ∧ pr.1 ≤ 10 ∧ pr.2 ≤ 40 := by
  unfold scrapeTrace scrape_single_day
  by_cases hs : env.searchOk = true
  · rw [if_pos hs]
    have h := pageLoopAux_trace env.pages 10 1 [] []
    refine ⟨by simpa using h.1, ?_⟩
    intro pr hpr
    rcases h.2 pr hpr with h' | h'
    · cases h'
    · exact ⟨h'.1, by omega, h'.2.2⟩
  · rw [if_neg hs]
    exact ⟨by simp, fun pr hpr => by cases hpr⟩

/-- Closed instance of `C10_bounded_walk` on the clean example run:
the trace has at most 10 entries and its first entry `(1, 40)` is in
bounds. -/
theorem C10_witness :
    (scrapeTrace cleanEnvEx).length ≤ 10
    ∧ (1 ≤ (1, 40).1 ∧ (1, 40).1 ≤ 10 ∧ (1, 40).2 ≤ 40) :=
  ⟨(C10_bounded_walk cleanEnvEx).1,
   (C10_bounded_walk cleanEnvEx).2 (1, 40) (by decide)⟩

end Delaware
